import Mathlib

/-!
# Verification of the p2d collision design (src/unnamed/part_001)

Shallow embedding of the collision-detection and impulse-resolution code of
the p2d repository.  The authoritative code is the Rust-style code in the
design document `src/unnamed/part_001`:

* `AABBvsAABB` (lines 17-26): the four-comparison slab overlap test;
* `resolveCollision` (lines 76-93): the impulse solver;
* the data structures `AABB` (lines 8-11), `Material` (lines 135-138),
  `MassData` (lines 117-124), `Body` (lines 103-111) and `Pair`
  (lines 164-167).

Scalars (`f32` in the source) are embedded as `ℚ` so that all arithmetic is
exact.  The source stores an inverse mass in `MassData` (`inv_mass`, with a
static body having `mass = 0` and `inv_mass = 0`); `resolveCollision` writes
this quantity as `1 / mass`.  In `ℚ` we have `1 / 0 = 0`, so the literal
translation `1 / mass` coincides with the stored inverse mass for every body,
static bodies included, which is exactly the stored-inverse semantics the
design relies on ("static bodies are unaffected automatically").
-/

/-- 2D vector, `Vec2 { x, y }` of the source (`f32` components embedded as
`ℚ`). -/
structure Vec2 where
  x : ℚ
  y : ℚ
deriving DecidableEq

namespace Vec2

/-- Componentwise addition. -/
def add (v w : Vec2) : Vec2 := ⟨v.x + w.x, v.y + w.y⟩

/-- Componentwise subtraction. -/
def sub (v w : Vec2) : Vec2 := ⟨v.x - w.x, v.y - w.y⟩

/-- Scalar multiplication. -/
def smul (c : ℚ) (v : Vec2) : Vec2 := ⟨c * v.x, c * v.y⟩

/-- Dot product, `V1 · V2 = x1 * x2 + y1 * y2` (formula 3 of the document,
which has a typo `y2 * y2` there; the dot product used by the derivation and
by `rv * normal` in the code is the standard one). -/
def dot (v w : Vec2) : ℚ := v.x * w.x + v.y * w.y

instance : Add Vec2 := ⟨add⟩
instance : Sub Vec2 := ⟨sub⟩
instance : SMul ℚ Vec2 := ⟨smul⟩

@[simp] theorem add_def (v w : Vec2) : v + w = ⟨v.x + w.x, v.y + w.y⟩ := rfl

@[simp] theorem sub_def (v w : Vec2) : v - w = ⟨v.x - w.x, v.y - w.y⟩ := rfl

@[simp] theorem smul_def (c : ℚ) (v : Vec2) : c • v = ⟨c * v.x, c * v.y⟩ := rfl

@[simp] theorem zero_smul_vec (v : Vec2) : (0 : ℚ) • v = ⟨0, 0⟩ := by
  simp

@[simp] theorem sub_zero_vec (v : Vec2) : v - ⟨0, 0⟩ = v := by
  simp

@[simp] theorem add_zero_vec (v : Vec2) : v + ⟨0, 0⟩ = v := by
  simp

end Vec2

/-- Axis-aligned bounding box, `AABB { min, max }` of the source
(lines 8-11). -/
structure AABB where
  min : Vec2
  max : Vec2
deriving DecidableEq

/-- The slab overlap test `AABBvsAABB` (source lines 17-26).

The source is design-document pseudocode: the two `false` occurrences are
early returns (as bare statements they would be dead code), and the second
test is written `a.max < b.min.y`, which is ill-typed (a `Vec2` compared with
a scalar); by the symmetry with the x-axis test on the previous line it reads
`a.max.y < b.min.y`. -/
def AABBvsAABB (a b : AABB) : Bool :=
  if a.max.x < b.min.x ∨ a.min.x > b.max.x then
    false
  else if a.max.y < b.min.y ∨ a.min.y > b.max.y then
    false
  else
    true

/-- Surface material, `Material { density, restitution }` of the source
(lines 135-138). -/
structure Material where
  density : ℚ
  restitution : ℚ
deriving DecidableEq

/-- The body state acted on by `resolveCollision` (`Object` in the source,
lines 76-93).  The fields the code reads and writes are `velocity`,
`restitution` and `mass` (`a.velocity`, `a.restitution`, `a.mass`); `position`
is the position of the body's transform (`Body.tx`, source lines 103-111),
carried so that position (non-)mutation can be stated. -/
structure Object where
  velocity : Vec2
  position : Vec2
  restitution : ℚ
  mass : ℚ
deriving DecidableEq

namespace Object

/-- Stored inverse mass, per `MassData` (source lines 117-124): a static body
has `mass = 0` and `inv_mass = 0`, a dynamic body has `inv_mass = 1 / mass`.
In `ℚ`, `1 / 0 = 0`, so the single expression covers both cases. -/
def inv_mass (o : Object) : ℚ := 1 / o.mass

end Object

/-- `rv = b.velocity - a.velocity` dotted with the contact normal:
`vel_along_normal` of `resolveCollision` (source lines 77-79).  The contact
normal is free in the source's function body; it is the normal of the
collision being resolved and is passed explicitly here. -/
def velAlongNormal (normal : Vec2) (a b : Object) : ℚ :=
  Vec2.dot (b.velocity - a.velocity) normal

/-- The impulse scalar `j` of `resolveCollision` (source lines 85-88):
`j = -(1 + e) * vel_along_normal` divided by `1 / a.mass + 1 / b.mass`,
with `e = min(a.restitution, b.restitution)`. -/
def impulseScalar (normal : Vec2) (a b : Object) : ℚ :=
  let e := min a.restitution b.restitution
  (-(1 + e) * velAlongNormal normal a b) / (1 / a.mass + 1 / b.mass)

/-- `resolveCollision` (source lines 76-93).  The source mutates `a` and `b`
in place; here the updated pair is returned.  If `vel_along_normal > 0` the
bodies are separating and the function returns without touching them;
otherwise the impulse `j * normal` is applied, subtracted from `a` and added
to `b`, each weighted by `1 / mass`. -/
def resolveCollision (normal : Vec2) (a b : Object) : Object × Object :=
  let rv := b.velocity - a.velocity
  let vel_along_normal := Vec2.dot rv normal
  if vel_along_normal > 0 then
    (a, b)
  else
    let j := impulseScalar normal a b
    let impulse := j • normal
    ({ a with velocity := a.velocity - (1 / a.mass) • impulse },
     { b with velocity := b.velocity + (1 / b.mass) • impulse })

/-- Modelled from the spec: the broad-phase pair generation (`findPairs`).
The source contains only the `Pair` struct (src/unnamed/part_001 lines
164-167) and prose; the generating loop itself is not under src/.  Per the
spec it is a naive scan over all unordered index pairs `(i, j)` with `i < j`,
emitting the pair when the two bodies' bounding boxes overlap under the slab
test.  Bodies are represented by their bounding boxes. -/
def findPairs (boxes : List AABB) : List (ℕ × ℕ) :=
  (List.range boxes.length).flatMap fun i =>
    (List.range boxes.length).filterMap fun j =>
      if i < j ∧ AABBvsAABB (boxes.getD i ⟨⟨0, 0⟩, ⟨0, 0⟩⟩)
                            (boxes.getD j ⟨⟨0, 0⟩, ⟨0, 0⟩⟩) = true then
        some (i, j)
      else
        none

/-! ## Helper lemmas -/

/-- Characterisation of the slab test: `AABBvsAABB` returns `false` exactly
when one of the four separating comparisons holds. -/
theorem AABBvsAABB_eq_false_iff (a b : AABB) :
    AABBvsAABB a b = false ↔
      (a.max.x < b.min.x ∨ a.min.x > b.max.x ∨
       a.max.y < b.min.y ∨ a.min.y > b.max.y) := by
  unfold AABBvsAABB
  by_cases h1 : a.max.x < b.min.x ∨ a.min.x > b.max.x
  · simp only [if_pos h1]
    tauto
  · rw [if_neg h1]
    by_cases h2 : a.max.y < b.min.y ∨ a.min.y > b.max.y
    · simp only [if_pos h2]
      tauto
    · simp only [if_neg h2]
      tauto

/-- Every pair emitted by the broad phase has strictly increasing indices. -/
theorem findPairs_lt {boxes : List AABB} {i j : ℕ}
    (h : (i, j) ∈ findPairs boxes) : i < j := by
  unfold findPairs at h
  rw [List.mem_flatMap] at h
  obtain ⟨i', _, hi'⟩ := h
  rw [List.mem_filterMap] at hi'
  obtain ⟨j', _, hj'⟩ := hi'
  split at hj'
  · next hc =>
    cases hj'
    exact hc.1
  · exact absurd hj' (Option.noConfusion)

/-- Branch equation: separating contact, the bodies are returned untouched. -/
theorem resolveCollision_pos (normal : Vec2) (a b : Object)
    (h : velAlongNormal normal a b > 0) :
    resolveCollision normal a b = (a, b) := by
  have h' : Vec2.dot (b.velocity - a.velocity) normal > 0 := h
  simp only [resolveCollision]
  rw [if_pos h']

/-- Branch equation: approaching (or resting) contact, the impulse
`j * normal` is applied to both bodies. -/
theorem resolveCollision_nonpos (normal : Vec2) (a b : Object)
    (h : ¬ velAlongNormal normal a b > 0) :
    resolveCollision normal a b =
      ({ a with velocity := a.velocity - (1 / a.mass) • (impulseScalar normal a b • normal) },
       { b with velocity := b.velocity + (1 / b.mass) • (impulseScalar normal a b • normal) }) := by
  have h' : ¬ Vec2.dot (b.velocity - a.velocity) normal > 0 := h
  simp only [resolveCollision]
  rw [if_neg h']

/-! ## The claims -/

/-- Claim C2: `AABBvsAABB a b` returns `false` if and only if one of the four
separating comparisons `a.max.x < b.min.x`, `a.min.x > b.max.x`,
`a.max.y < b.min.y`, `a.min.y > b.max.y` holds, and returns `true`
otherwise. -/
theorem C2_AABBvsAABB_false_iff (a b : AABB) :
    (AABBvsAABB a b = false ↔
      (a.max.x < b.min.x ∨ a.min.x > b.max.x ∨
       a.max.y < b.min.y ∨ a.min.y > b.max.y)) ∧
    (AABBvsAABB a b = true ↔
      ¬(a.max.x < b.min.x ∨ a.min.x > b.max.x ∨
        a.max.y < b.min.y ∨ a.min.y > b.max.y)) := by
  refine ⟨AABBvsAABB_eq_false_iff a b, ?_⟩
  rw [← AABBvsAABB_eq_false_iff a b]
  cases AABBvsAABB a b <;> simp

/-- Claim C6: the slab overlap test is symmetric in its two arguments. -/
theorem C6_AABBvsAABB_comm (a b : AABB) : AABBvsAABB a b = AABBvsAABB b a := by
  have hab := AABBvsAABB_eq_false_iff a b
  have hba := AABBvsAABB_eq_false_iff b a
  cases h1 : AABBvsAABB a b <;> cases h2 : AABBvsAABB b a <;> simp_all [gt_iff_lt]
  · obtain ⟨p1, p2, p3, p4⟩ := hba
    rcases hab with h | h | h | h <;> linarith
  · obtain ⟨p1, p2, p3, p4⟩ := hab
    rcases hba with h | h | h | h <;> linarith

/-- Claim C7: every pair emitted by the broad phase has `i < j`; hence no pair
`(i, i)` is emitted and the two orders of a pair are never both emitted. -/
theorem C7_no_self_pair_no_dup (boxes : List AABB) (i j : ℕ)
    (h : (i, j) ∈ findPairs boxes) :
    i < j ∧ i ≠ j ∧ (j, i) ∉ findPairs boxes := by
  have hij := findPairs_lt h
  exact ⟨hij, Nat.ne_of_lt hij, fun hji => absurd (findPairs_lt hji) (by omega)⟩

theorem C7_witness :
    (0, 1) ∈ findPairs [⟨⟨0, 0⟩, ⟨2, 2⟩⟩, ⟨⟨1, 1⟩, ⟨3, 3⟩⟩] ∧
    (0 < 1 ∧ 0 ≠ 1 ∧ (1, 0) ∉ findPairs [⟨⟨0, 0⟩, ⟨2, 2⟩⟩, ⟨⟨1, 1⟩, ⟨3, 3⟩⟩]) :=
  ⟨by decide, C7_no_self_pair_no_dup [⟨⟨0, 0⟩, ⟨2, 2⟩⟩, ⟨⟨1, 1⟩, ⟨3, 3⟩⟩] 0 1 (by decide)⟩

/-- Claim C3: a separating contact (`velAlongNormal > 0`) is skipped, leaving both
velocities unchanged. -/
theorem C3_separating_skip (normal : Vec2) (a b : Object)
    (h : velAlongNormal normal a b > 0) :
    (resolveCollision normal a b).1.velocity = a.velocity ∧
    (resolveCollision normal a b).2.velocity = b.velocity := by
  rw [resolveCollision_pos normal a b h]
  exact ⟨rfl, rfl⟩

theorem C3_witness :
    velAlongNormal ⟨1, 0⟩ ⟨⟨1, 0⟩, ⟨0, 0⟩, 1, 1⟩ ⟨⟨3, 0⟩, ⟨1, 0⟩, 1, 1⟩ > 0 ∧
    (resolveCollision ⟨1, 0⟩ ⟨⟨1, 0⟩, ⟨0, 0⟩, 1, 1⟩ ⟨⟨3, 0⟩, ⟨1, 0⟩, 1, 1⟩).1.velocity = ⟨1, 0⟩ ∧
    (resolveCollision ⟨1, 0⟩ ⟨⟨1, 0⟩, ⟨0, 0⟩, 1, 1⟩ ⟨⟨3, 0⟩, ⟨1, 0⟩, 1, 1⟩).2.velocity = ⟨3, 0⟩ :=
  ⟨by norm_num [velAlongNormal, Vec2.dot],
   (C3_separating_skip ⟨1, 0⟩ ⟨⟨1, 0⟩, ⟨0, 0⟩, 1, 1⟩ ⟨⟨3, 0⟩, ⟨1, 0⟩, 1, 1⟩
     (by norm_num [velAlongNormal, Vec2.dot])).1,
   (C3_separating_skip ⟨1, 0⟩ ⟨⟨1, 0⟩, ⟨0, 0⟩, 1, 1⟩ ⟨⟨3, 0⟩, ⟨1, 0⟩, 1, 1⟩
     (by norm_num [velAlongNormal, Vec2.dot])).2⟩
/-- Claim C4: a static body (stored inverse mass zero) has its velocity and
position unchanged by resolution, whichever side of the pair it is on. -/
theorem C4_static_invariance (normal : Vec2) (a b : Object) :
    (Object.inv_mass a = 0 → Object.inv_mass b ≠ 0 →
      (resolveCollision normal a b).1.velocity = a.velocity ∧
      (resolveCollision normal a b).1.position = a.position) ∧
    (Object.inv_mass b = 0 → Object.inv_mass a ≠ 0 →
      (resolveCollision normal a b).2.velocity = b.velocity ∧
      (resolveCollision normal a b).2.position = b.position) := by
  constructor
  · intro ha _
    by_cases h : velAlongNormal normal a b > 0
    · rw [resolveCollision_pos normal a b h]
      exact ⟨rfl, rfl⟩
    · rw [resolveCollision_nonpos normal a b h]
      have ha' : (1 : ℚ) / a.mass = 0 := ha
      exact ⟨by simp [ha'], rfl⟩
  · intro hb _
    by_cases h : velAlongNormal normal a b > 0
    · rw [resolveCollision_pos normal a b h]
      exact ⟨rfl, rfl⟩
    · rw [resolveCollision_nonpos normal a b h]
      have hb' : (1 : ℚ) / b.mass = 0 := hb
      exact ⟨by simp [hb'], rfl⟩

theorem C4_witness :
    Object.inv_mass ⟨⟨0, 0⟩, ⟨0, 0⟩, 1/2, 0⟩ = 0 ∧
    Object.inv_mass ⟨⟨-3, 0⟩, ⟨1, 0⟩, 1/2, 2⟩ ≠ 0 ∧
    (resolveCollision ⟨1, 0⟩ ⟨⟨0, 0⟩, ⟨0, 0⟩, 1/2, 0⟩ ⟨⟨-3, 0⟩, ⟨1, 0⟩, 1/2, 2⟩).1.velocity = ⟨0, 0⟩ ∧
    (resolveCollision ⟨1, 0⟩ ⟨⟨0, 0⟩, ⟨0, 0⟩, 1/2, 0⟩ ⟨⟨-3, 0⟩, ⟨1, 0⟩, 1/2, 2⟩).1.position = ⟨0, 0⟩ :=
  ⟨by norm_num [Object.inv_mass], by norm_num [Object.inv_mass],
   ((C4_static_invariance ⟨1, 0⟩ ⟨⟨0, 0⟩, ⟨0, 0⟩, 1/2, 0⟩ ⟨⟨-3, 0⟩, ⟨1, 0⟩, 1/2, 2⟩).1
     (by norm_num [Object.inv_mass]) (by norm_num [Object.inv_mass])).1,
   ((C4_static_invariance ⟨1, 0⟩ ⟨⟨0, 0⟩, ⟨0, 0⟩, 1/2, 0⟩ ⟨⟨-3, 0⟩, ⟨1, 0⟩, 1/2, 2⟩).1
     (by norm_num [Object.inv_mass]) (by norm_num [Object.inv_mass])).2⟩

/-- Claim C10: a resting contact (`velAlongNormal = 0`) does not trigger the
early exit, but the impulse scalar and hence the applied impulse vector are
zero, leaving both velocities unchanged. -/
theorem C10_resting_contact (normal : Vec2) (a b : Object)
    (h : velAlongNormal normal a b = 0) :
    ¬ velAlongNormal normal a b > 0 ∧
    impulseScalar normal a b = 0 ∧
    impulseScalar normal a b • normal = ⟨0, 0⟩ ∧
    (resolveCollision normal a b).1.velocity = a.velocity ∧
    (resolveCollision normal a b).2.velocity = b.velocity := by
  have hng : ¬ velAlongNormal normal a b > 0 := by rw [h]; exact lt_irrefl 0
  have hj : impulseScalar normal a b = 0 := by simp [impulseScalar, h]
  refine ⟨hng, hj, by simp [hj], ?_, ?_⟩
  · rw [resolveCollision_nonpos normal a b hng]
    simp [hj]
  · rw [resolveCollision_nonpos normal a b hng]
    simp [hj]

theorem C10_witness :
    velAlongNormal ⟨0, 1⟩ ⟨⟨1, 0⟩, ⟨0, 0⟩, 1/2, 1⟩ ⟨⟨2, 0⟩, ⟨1, 0⟩, 1/2, 1⟩ = 0 ∧
    (¬ velAlongNormal ⟨0, 1⟩ ⟨⟨1, 0⟩, ⟨0, 0⟩, 1/2, 1⟩ ⟨⟨2, 0⟩, ⟨1, 0⟩, 1/2, 1⟩ > 0 ∧
     impulseScalar ⟨0, 1⟩ ⟨⟨1, 0⟩, ⟨0, 0⟩, 1/2, 1⟩ ⟨⟨2, 0⟩, ⟨1, 0⟩, 1/2, 1⟩ = 0 ∧
     impulseScalar ⟨0, 1⟩ ⟨⟨1, 0⟩, ⟨0, 0⟩, 1/2, 1⟩ ⟨⟨2, 0⟩, ⟨1, 0⟩, 1/2, 1⟩ • (⟨0, 1⟩ : Vec2) = ⟨0, 0⟩ ∧
     (resolveCollision ⟨0, 1⟩ ⟨⟨1, 0⟩, ⟨0, 0⟩, 1/2, 1⟩ ⟨⟨2, 0⟩, ⟨1, 0⟩, 1/2, 1⟩).1.velocity = ⟨1, 0⟩ ∧
     (resolveCollision ⟨0, 1⟩ ⟨⟨1, 0⟩, ⟨0, 0⟩, 1/2, 1⟩ ⟨⟨2, 0⟩, ⟨1, 0⟩, 1/2, 1⟩).2.velocity = ⟨2, 0⟩) :=
  ⟨by norm_num [velAlongNormal, Vec2.dot],
   C10_resting_contact ⟨0, 1⟩ ⟨⟨1, 0⟩, ⟨0, 0⟩, 1/2, 1⟩ ⟨⟨2, 0⟩, ⟨1, 0⟩, 1/2, 1⟩
     (by norm_num [velAlongNormal, Vec2.dot])⟩

/-- Claim C9: for finite nonzero masses the impulse applied to `b` is exactly the
impulse removed from `a`, so total linear momentum is conserved. -/
theorem C9_momentum_conservation (normal : Vec2) (a b : Object)
    (ha : a.mass ≠ 0) (hb : b.mass ≠ 0) :
    a.mass • (resolveCollision normal a b).1.velocity +
      b.mass • (resolveCollision normal a b).2.velocity =
    a.mass • a.velocity + b.mass • b.velocity := by
  by_cases h : velAlongNormal normal a b > 0
  · rw [resolveCollision_pos normal a b h]
  · rw [resolveCollision_nonpos normal a b h]
    simp only [Vec2.smul_def, Vec2.sub_def, Vec2.add_def, Vec2.mk.injEq]
    constructor <;> field_simp <;> ring

theorem C9_witness :
    (1 : ℚ) ≠ 0 ∧ (2 : ℚ) ≠ 0 ∧
    (1 : ℚ) • (resolveCollision ⟨1, 0⟩ ⟨⟨5, 0⟩, ⟨0, 0⟩, 1/2, 1⟩ ⟨⟨-5, 0⟩, ⟨1, 0⟩, 1/2, 2⟩).1.velocity +
      (2 : ℚ) • (resolveCollision ⟨1, 0⟩ ⟨⟨5, 0⟩, ⟨0, 0⟩, 1/2, 1⟩ ⟨⟨-5, 0⟩, ⟨1, 0⟩, 1/2, 2⟩).2.velocity =
    (1 : ℚ) • (⟨5, 0⟩ : Vec2) + (2 : ℚ) • (⟨-5, 0⟩ : Vec2) :=
  ⟨by norm_num, by norm_num,
   C9_momentum_conservation ⟨1, 0⟩ ⟨⟨5, 0⟩, ⟨0, 0⟩, 1/2, 1⟩ ⟨⟨-5, 0⟩, ⟨1, 0⟩, 1/2, 2⟩
     (by norm_num) (by norm_num)⟩

/-- Claim C5, counterexample: two static bodies at rest pass the separating-contact
guard (so the invocation reaches the impulse division) while the denominator
`a.inv_mass + b.inv_mass` is zero: nothing in `resolveCollision` filters a
static-static pair. -/
theorem C5_counterexample :
    ¬ velAlongNormal ⟨1, 0⟩ ⟨⟨0, 0⟩, ⟨0, 0⟩, 1/2, 0⟩ ⟨⟨0, 0⟩, ⟨2, 0⟩, 1/2, 0⟩ > 0 ∧
    Object.inv_mass ⟨⟨0, 0⟩, ⟨0, 0⟩, 1/2, 0⟩ + Object.inv_mass ⟨⟨0, 0⟩, ⟨2, 0⟩, 1/2, 0⟩ = 0 := by
  constructor
  · norm_num [velAlongNormal, Vec2.dot]
  · norm_num [Object.inv_mass]

/-- Claim C5, amended: when both bodies are static the division step is reachable
with a zero denominator; with the stored-inverse-mass semantics the computed
impulse scalar is zero and both velocities are unchanged (harmless). -/
theorem C5_static_pair_harmless (normal : Vec2) (a b : Object)
    (ha : Object.inv_mass a = 0) (hb : Object.inv_mass b = 0)
    (h : ¬ velAlongNormal normal a b > 0) :
    1 / a.mass + 1 / b.mass = 0 ∧
    impulseScalar normal a b = 0 ∧
    (resolveCollision normal a b).1.velocity = a.velocity ∧
    (resolveCollision normal a b).2.velocity = b.velocity := by
  have ha' : (1 : ℚ) / a.mass = 0 := ha
  have hb' : (1 : ℚ) / b.mass = 0 := hb
  have hd : 1 / a.mass + 1 / b.mass = 0 := by rw [ha', hb']; ring
  have hj : impulseScalar normal a b = 0 := by
    simp only [impulseScalar]
    rw [hd, div_zero]
  refine ⟨hd, ?_, ?_, ?_⟩
  · exact hj
  · rw [resolveCollision_nonpos normal a b h]
    simp [ha']
  · rw [resolveCollision_nonpos normal a b h]
    simp [hb']

theorem C5_witness :
    Object.inv_mass ⟨⟨0, 0⟩, ⟨0, 0⟩, 1/2, 0⟩ = 0 ∧
    Object.inv_mass ⟨⟨0, 0⟩, ⟨2, 0⟩, 1/2, 0⟩ = 0 ∧
    (¬ velAlongNormal ⟨1, 0⟩ ⟨⟨0, 0⟩, ⟨0, 0⟩, 1/2, 0⟩ ⟨⟨0, 0⟩, ⟨2, 0⟩, 1/2, 0⟩ > 0) ∧
    ((1 : ℚ) / (0 : ℚ) + 1 / (0 : ℚ) = 0 ∧
     impulseScalar ⟨1, 0⟩ ⟨⟨0, 0⟩, ⟨0, 0⟩, 1/2, 0⟩ ⟨⟨0, 0⟩, ⟨2, 0⟩, 1/2, 0⟩ = 0 ∧
     (resolveCollision ⟨1, 0⟩ ⟨⟨0, 0⟩, ⟨0, 0⟩, 1/2, 0⟩ ⟨⟨0, 0⟩, ⟨2, 0⟩, 1/2, 0⟩).1.velocity = ⟨0, 0⟩ ∧
     (resolveCollision ⟨1, 0⟩ ⟨⟨0, 0⟩, ⟨0, 0⟩, 1/2, 0⟩ ⟨⟨0, 0⟩, ⟨2, 0⟩, 1/2, 0⟩).2.velocity = ⟨0, 0⟩) :=
  ⟨by norm_num [Object.inv_mass], by norm_num [Object.inv_mass],
   by norm_num [velAlongNormal, Vec2.dot],
   C5_static_pair_harmless ⟨1, 0⟩ ⟨⟨0, 0⟩, ⟨0, 0⟩, 1/2, 0⟩ ⟨⟨0, 0⟩, ⟨2, 0⟩, 1/2, 0⟩
     (by norm_num [Object.inv_mass]) (by norm_num [Object.inv_mass])
     (by norm_num [velAlongNormal, Vec2.dot])⟩

/-- Claim C8, counterexample: a resolved collision that changes `a`'s velocity while
leaving both positions exactly where they were — `resolveCollision` performs
no positional correction. -/
theorem C8_counterexample :
    (resolveCollision ⟨1, 0⟩ ⟨⟨5, 0⟩, ⟨0, 0⟩, 1/2, 1⟩ ⟨⟨-5, 0⟩, ⟨1, 0⟩, 1/2, 1⟩).1.velocity ≠ ⟨5, 0⟩ ∧
    (resolveCollision ⟨1, 0⟩ ⟨⟨5, 0⟩, ⟨0, 0⟩, 1/2, 1⟩ ⟨⟨-5, 0⟩, ⟨1, 0⟩, 1/2, 1⟩).1.position = ⟨0, 0⟩ ∧
    (resolveCollision ⟨1, 0⟩ ⟨⟨5, 0⟩, ⟨0, 0⟩, 1/2, 1⟩ ⟨⟨-5, 0⟩, ⟨1, 0⟩, 1/2, 1⟩).2.position = ⟨1, 0⟩ := by
  refine ⟨?_, ?_, ?_⟩ <;> norm_num [resolveCollision, impulseScalar, velAlongNormal, Vec2.dot]

/-- Claim C8, amended: `resolveCollision` mutates only the velocities; the bodies'
positions (transforms), masses and restitutions are unchanged — the
positional-correction pass described by the spec is absent from the code. -/
theorem C8_velocity_only (normal : Vec2) (a b : Object) :
    (resolveCollision normal a b).1.position = a.position ∧
    (resolveCollision normal a b).2.position = b.position ∧
    (resolveCollision normal a b).1.mass = a.mass ∧
    (resolveCollision normal a b).2.mass = b.mass ∧
    (resolveCollision normal a b).1.restitution = a.restitution ∧
    (resolveCollision normal a b).2.restitution = b.restitution := by
  by_cases h : velAlongNormal normal a b > 0
  · rw [resolveCollision_pos normal a b h]
    exact ⟨rfl, rfl, rfl, rfl, rfl, rfl⟩
  · rw [resolveCollision_nonpos normal a b h]
    exact ⟨rfl, rfl, rfl, rfl, rfl, rfl⟩

/-- Claim C1: for a confirmed collision with non-separating relative velocity, the
impulse scalar equals `-(1+e) * velAlongNormal / (a.inv_mass + b.inv_mass)`
with `e = min(a.restitution, b.restitution)`; in particular, for two bodies
of equal mass approaching head-on at speed 5 each with restitution 0.8, `j`
equals `-(1.8)(-10) / (1/mass + 1/mass)` to within `1e-5`. -/
theorem C1_impulse_scalar_formula (normal : Vec2) (a b : Object)
    (h : velAlongNormal normal a b ≤ 0) :
    impulseScalar normal a b =
      -(1 + min a.restitution b.restitution) * velAlongNormal normal a b /
        (Object.inv_mass a + Object.inv_mass b) ∧
    (a.restitution = 8/10 → b.restitution = 8/10 → a.mass = b.mass →
      a.velocity = ⟨5, 0⟩ → b.velocity = ⟨-5, 0⟩ → normal = ⟨1, 0⟩ →
      |impulseScalar normal a b - -(18/10) * (-10) / (1 / a.mass + 1 / b.mass)| ≤ 1/100000) := by
  constructor
  · rfl
  · intro h1 h2 _ h4 h5 h6
    have hv : velAlongNormal normal a b = -10 := by
      rw [velAlongNormal, h4, h5, h6]
      norm_num [Vec2.dot]
    have : impulseScalar normal a b =
        -(18/10) * (-10) / (1 / a.mass + 1 / b.mass) := by
      simp only [impulseScalar, hv, h1, h2]
      norm_num
    rw [this, sub_self, abs_zero]
    norm_num

theorem C1_witness :
    velAlongNormal ⟨1, 0⟩ ⟨⟨5, 0⟩, ⟨0, 0⟩, 8/10, 2827433/1000⟩
      ⟨⟨-5, 0⟩, ⟨50, 0⟩, 8/10, 2827433/1000⟩ ≤ 0 ∧
    |impulseScalar ⟨1, 0⟩ ⟨⟨5, 0⟩, ⟨0, 0⟩, 8/10, 2827433/1000⟩
        ⟨⟨-5, 0⟩, ⟨50, 0⟩, 8/10, 2827433/1000⟩ -
      -(18/10) * (-10) / (1 / (2827433/1000 : ℚ) + 1 / (2827433/1000 : ℚ))| ≤ 1/100000 :=
  ⟨by norm_num [velAlongNormal, Vec2.dot],
   (C1_impulse_scalar_formula ⟨1, 0⟩ ⟨⟨5, 0⟩, ⟨0, 0⟩, 8/10, 2827433/1000⟩
     ⟨⟨-5, 0⟩, ⟨50, 0⟩, 8/10, 2827433/1000⟩
     (by norm_num [velAlongNormal, Vec2.dot])).2 rfl rfl rfl rfl rfl rfl⟩
